import Mathlib

/-!
Shallow embedding of `src/components/player/hooks/desktop/useFullscreenControls.ts`
(KVideo). Browser APIs are modelled by an environment record describing which
vendor methods exist and whether a call resolves (`some true`), rejects or
throws (`some false`), or is absent (`none`). Each command is embedded as a
function producing the ordered list of observable effects (API invocations,
mutator calls, console logs) together with an `Except Unit Unit` outcome:
`.error ()` stands for an exception propagating to the caller.
-/

namespace KVideo

/-- The five methods of the fullscreen entry fallback chain, in source order
(lines 38-49 of useFullscreenControls.ts). -/
inductive EntryMethod where
  | requestFullscreen
  | webkitRequestFullscreen
  | mozRequestFullScreen
  | msRequestFullscreen
  | webkitEnterFullscreen
  deriving Repr, DecidableEq, Fintype

/-- The four methods of the fullscreen exit fallback chain, in source order
(lines 72-80). -/
inductive ExitMethod where
  | exitFullscreen
  | webkitExitFullscreen
  | mozCancelFullScreen
  | msExitFullscreen
  deriving Repr, DecidableEq, Fintype

/-- Observable effects emitted by the embedded commands. -/
inductive Effect where
  | entryCall (m : EntryMethod)
  | exitCall (m : ExitMethod)
  | lockCall
  | unlockCall
  | warnLog
  | errorLog
  | setIsFullscreen (b : Bool)
  | setIsPiPSupported (b : Bool)
  | setIsAirPlaySupported (b : Bool)
  | pipExitCall
  | pipEnterCall
  | airPlayPickerCall
  deriving Repr, DecidableEq

/-- Host environment for `toggleFullscreen`: which references and vendor
methods exist, and whether each call resolves (`some true`) or
rejects/throws (`some false`). -/
structure FullscreenEnv where
  containerPresent : Bool
  requestFullscreen : Option Bool
  webkitRequestFullscreen : Option Bool
  mozRequestFullScreen : Option Bool
  msRequestFullscreen : Option Bool
  videoPresent : Bool
  webkitEnterFullscreen : Option Bool
  exitFullscreen : Option Bool
  webkitExitFullscreen : Option Bool
  mozCancelFullScreen : Option Bool
  msExitFullscreen : Option Bool
  orientationLock : Option Bool
  orientationUnlock : Option Bool
  deriving Repr, DecidableEq

/-- A computation result: trace of effects so far, and whether an exception
is propagating. -/
abbrev Comp := List Effect × Except Unit Unit

instance : DecidableEq (Except Unit Unit) := fun a b =>
  match a, b with
  | .ok (), .ok () => isTrue rfl
  | .error (), .error () => isTrue rfl
  | .ok (), .error () => isFalse fun h => Except.noConfusion h
  | .error (), .ok () => isFalse fun h => Except.noConfusion h

/-- Whether a computation outcome is a normal return (no exception reached
the caller). -/
def isOk : Except Unit Unit → Bool
  | .ok _ => true
  | .error _ => false

/-- Sequence two computations; the second runs only when the first did not
throw, as in straight-line JS code. -/
def eseq (a b : Comp) : Comp :=
  match a with
  | (tr, .ok _) => (tr ++ b.1, b.2)
  | (tr, .error e) => (tr, .error e)

/-- A JS `try { body } catch { handler }` block: the handler runs exactly
when the body throws/rejects. -/
def tryCatch (body handler : Comp) : Comp :=
  match body with
  | (tr, .ok _) => (tr, .ok ())
  | (tr, .error _) => (tr ++ handler.1, handler.2)

/-- One awaited vendor call: if the method is absent nothing happens; if
present it is invoked, rejecting when the environment says so. -/
def callStep (e : Effect) (method : Option Bool) (next : Comp) : Comp :=
  match method with
  | some ok => ([e], if ok then Except.ok () else Except.error ())
  | none => next

/-- The entry fallback chain of `toggleFullscreen` (lines 38-49): first
existing method wins; the fifth link additionally requires the media
element reference. -/
def enterChain (env : FullscreenEnv) : Comp :=
  callStep (.entryCall .requestFullscreen) env.requestFullscreen <|
  callStep (.entryCall .webkitRequestFullscreen) env.webkitRequestFullscreen <|
  callStep (.entryCall .mozRequestFullScreen) env.mozRequestFullScreen <|
  callStep (.entryCall .msRequestFullscreen) env.msRequestFullscreen <|
  (if env.videoPresent then
    callStep (.entryCall .webkitEnterFullscreen) env.webkitEnterFullscreen ([], .ok ())
  else ([], .ok ()))

/-- Orientation lock block (lines 52-58): guarded on capability existence,
the awaited lock call is wrapped in its own try/catch that logs a warning. -/
def lockGuard (env : FullscreenEnv) : Comp :=
  match env.orientationLock with
  | none => ([], .ok ())
  | some ok =>
      tryCatch ([.lockCall], if ok then Except.ok () else Except.error ())
        ([.warnLog], .ok ())

/-- Last-ditch fallback in the entering branch catch handler (lines 62-68):
retry the media-element-native entry point, its own failure only logged. -/
def lastDitch (env : FullscreenEnv) : Comp :=
  if env.videoPresent then
    match env.webkitEnterFullscreen with
    | none => ([], .ok ())
    | some ok =>
        tryCatch ([.entryCall .webkitEnterFullscreen],
            if ok then Except.ok () else Except.error ())
          ([.errorLog], .ok ())
  else ([], .ok ())

/-- The entering branch of `toggleFullscreen` (lines 36-69). -/
def enterBranch (env : FullscreenEnv) : Comp :=
  tryCatch (eseq (enterChain env) (lockGuard env))
    (eseq ([.warnLog], .ok ()) (lastDitch env))

/-- The exit fallback chain (lines 72-80). -/
def exitChain (env : FullscreenEnv) : Comp :=
  callStep (.exitCall .exitFullscreen) env.exitFullscreen <|
  callStep (.exitCall .webkitExitFullscreen) env.webkitExitFullscreen <|
  callStep (.exitCall .mozCancelFullScreen) env.mozCancelFullScreen <|
  callStep (.exitCall .msExitFullscreen) env.msExitFullscreen ([], .ok ())

/-- Orientation unlock block in the exit branch (lines 83-89). -/
def unlockGuard (env : FullscreenEnv) : Comp :=
  match env.orientationUnlock with
  | none => ([], .ok ())
  | some ok =>
      tryCatch ([.unlockCall], if ok then Except.ok () else Except.error ())
        ([.warnLog], .ok ())

/-- The exiting branch (lines 70-93): chain then unlock inside one try,
whose catch only logs an error. -/
def exitBranch (env : FullscreenEnv) : Comp :=
  tryCatch (eseq (exitChain env) (unlockGuard env)) ([.errorLog], .ok ())

/-- `toggleFullscreen` (lines 33-94): early return on a null container
reference, then branch on the current `isFullscreen` flag. -/
def toggleFullscreen (env : FullscreenEnv) (isFullscreen : Bool) : Comp :=
  if env.containerPresent then
    if isFullscreen then exitBranch env else enterBranch env
  else ([], .ok ())

/-- Whether the k-th entry-chain method is exposed by the host; the fifth
lives on the media element, so its exposure includes that reference. -/
def entryExists (env : FullscreenEnv) : EntryMethod → Bool
  | .requestFullscreen => env.requestFullscreen.isSome
  | .webkitRequestFullscreen => env.webkitRequestFullscreen.isSome
  | .mozRequestFullScreen => env.mozRequestFullScreen.isSome
  | .msRequestFullscreen => env.msRequestFullscreen.isSome
  | .webkitEnterFullscreen => env.videoPresent && env.webkitEnterFullscreen.isSome

/-- Whether the k-th exit-chain method is exposed. -/
def exitExists (env : FullscreenEnv) : ExitMethod → Bool
  | .exitFullscreen => env.exitFullscreen.isSome
  | .webkitExitFullscreen => env.webkitExitFullscreen.isSome
  | .mozCancelFullScreen => env.mozCancelFullScreen.isSome
  | .msExitFullscreen => env.msExitFullscreen.isSome

/-- The entry-chain methods actually invoked in a trace, in order. -/
def entryCalls (tr : List Effect) : List EntryMethod :=
  tr.filterMap fun e => match e with | .entryCall m => some m | _ => none

/-- The exit-chain methods actually invoked in a trace, in order. -/
def exitCalls (tr : List Effect) : List ExitMethod :=
  tr.filterMap fun e => match e with | .exitCall m => some m | _ => none

/-- Whether an effect is a primary fullscreen API invocation (either chain). -/
def isFullscreenCall : Effect → Bool
  | .entryCall _ => true
  | .exitCall _ => true
  | _ => false

/-- The primary fullscreen API invocations of a trace. -/
def fullscreenCalls (tr : List Effect) : List Effect :=
  tr.filterMap fun e => if isFullscreenCall e then some e else none

/-- Replace the orientation lock/unlock behaviour of an environment. -/
def setOrientation (env : FullscreenEnv) (o u : Option Bool) : FullscreenEnv :=
  { env with orientationLock := o, orientationUnlock := u }

/-- Document state read by the passive fullscreen-change handler: whether
each vendor "current fullscreen element" property is non-null, plus the
orientation capability used by the handler's double-check block. -/
structure DocState where
  fullscreenElement : Bool
  webkitFullscreenElement : Bool
  mozFullScreenElement : Bool
  msFullscreenElement : Bool
  orientationLock : Option Bool
  orientationUnlock : Option Bool
  deriving Repr, DecidableEq

/-- The passive `handleFullscreenChange` handler (lines 97-118): writes the
OR of the four vendor properties, then re-locks or unlocks orientation with
all failures silently swallowed. -/
def handleFullscreenChange (d : DocState) : List Effect :=
  let isInFullscreen := d.fullscreenElement || d.webkitFullscreenElement ||
    d.mozFullScreenElement || d.msFullscreenElement
  Effect.setIsFullscreen isInFullscreen ::
    (if isInFullscreen then
      match d.orientationLock with
      | none => []
      | some _ => [Effect.lockCall]
    else
      match d.orientationUnlock with
      | none => []
      | some _ => [Effect.unlockCall])

/-- The `isFullscreen` values written by a trace, in order. -/
def fsWrites (tr : List Effect) : List Bool :=
  tr.filterMap fun e => match e with | .setIsFullscreen b => some b | _ => none

/-- Host globals as seen by the capability probe (lines 24-31). -/
structure ProbeEnv where
  documentDefined : Bool
  windowDefined : Bool
  pictureInPictureEnabledInDocument : Bool
  webKitPlaybackTargetAvailabilityEventInWindow : Bool
  deriving Repr, DecidableEq

/-- The capability probe effect (lines 24-31): each mutator call is guarded
by a typeof existence check on its global. -/
def capabilityProbe (env : ProbeEnv) : List Effect :=
  (if env.documentDefined then
    [Effect.setIsPiPSupported env.pictureInPictureEnabledInDocument]
  else []) ++
  (if env.windowDefined then
    [Effect.setIsAirPlaySupported env.webKitPlaybackTargetAvailabilityEventInWindow]
  else [])

/-- The shell-owned support flags written by the probe's mutators. -/
structure SupportFlags where
  isPiPSupported : Bool
  isAirPlaySupported : Bool
  deriving Repr, DecidableEq

/-- Apply one mutator effect to the support flags; other effects leave
them unchanged. -/
def applyFlag (s : SupportFlags) : Effect → SupportFlags
  | .setIsPiPSupported b => { s with isPiPSupported := b }
  | .setIsAirPlaySupported b => { s with isAirPlaySupported := b }
  | _ => s

/-- Run the capability probe against a prior flag state. -/
def runProbe (env : ProbeEnv) (s : SupportFlags) : SupportFlags :=
  (capabilityProbe env).foldl applyFlag s

/-- Host environment for `togglePictureInPicture` (lines 133-144). -/
structure PiPEnv where
  videoPresent : Bool
  isPiPSupported : Bool
  pictureInPictureElement : Bool
  exitPictureInPicture : Bool
  requestPictureInPicture : Bool
  deriving Repr, DecidableEq

/-- `togglePictureInPicture` (lines 133-144): no-op without a media element
or capability; otherwise exit when a PiP element is active, else enter;
rejections are logged inside the catch and never rethrown. -/
def togglePictureInPicture (env : PiPEnv) : Comp :=
  if !env.videoPresent || !env.isPiPSupported then ([], .ok ())
  else
    tryCatch
      (if env.pictureInPictureElement then
        ([.pipExitCall], if env.exitPictureInPicture then Except.ok () else Except.error ())
      else
        ([.pipEnterCall], if env.requestPictureInPicture then Except.ok () else Except.error ()))
      ([.errorLog], .ok ())

/-- Host environment for `showAirPlayMenu` (lines 146-152). -/
structure AirPlayEnv where
  videoPresent : Bool
  isAirPlaySupported : Bool
  webkitShowPlaybackTargetPicker : Bool
  deriving Repr, DecidableEq

/-- `showAirPlayMenu` (lines 146-152): guarded no-op, then fire-and-forget
picker invocation when the vendor method exists. -/
def showAirPlayMenu (env : AirPlayEnv) : List Effect :=
  if !env.videoPresent || !env.isAirPlaySupported then []
  else if env.webkitShowPlaybackTargetPicker then [.airPlayPickerCall] else []

/-- A DOM rectangle as returned by getBoundingClientRect, restricted to the
fields the menu positioning reads. -/
structure Rect where
  top : Int
  bottom : Int
  left : Int
  right : Int
  deriving Repr, DecidableEq

/-- A computed popover position. -/
structure MenuPosition where
  top : Int
  left : Int
  deriving Repr, DecidableEq

/-- Menu position computation of `DesktopSpeedMenu` (lines 193-196 and
205-208, identical at both call sites). -/
def computeMenuPosition (buttonRect containerRect : Rect) : MenuPosition :=
  { top := buttonRect.bottom - containerRect.top + 10
    left := buttonRect.right - containerRect.left }

/-- Modelled from the spec: the position the spec describes, the trigger's
bottom/right corner relative to the boundary origin with a fixed vertical
offset of 10. -/
def specMenuPosition (triggerRect boundaryRect : Rect) : MenuPosition :=
  { top := triggerRect.bottom - boundaryRect.top + 10
    left := triggerRect.right - boundaryRect.left }

/-- The CSS transform applied to the rendered popover (line 220). -/
def menuContentTransform : String := "translateX(-100%)"

/-- The four fullscreen-change event names subscribed by the passive
synchronization effect (lines 120-123). -/
def fullscreenChangeEvents : List String :=
  ["fullscreenchange", "webkitfullscreenchange", "mozfullscreenchange",
   "MSFullscreenChange"]

/-- A listener registration: event name paired with a handler identity. -/
abbrev Registration := String × Nat

/-- Effect setup (lines 120-123): addEventListener appends one registration
per event name, all with this activation's handler. -/
def mountEffect (h : Nat) (regs : List Registration) : List Registration :=
  regs ++ fullscreenChangeEvents.map fun ev => (ev, h)

/-- Effect cleanup (lines 125-130): removeEventListener removes the first
matching registration for each of the same four event names and handler. -/
def cleanupEffect (h : Nat) (regs : List Registration) : List Registration :=
  fullscreenChangeEvents.foldl (fun r ev => r.erase (ev, h)) regs

/-- One mount/unmount cycle with a fresh handler identity. -/
def mountCycle (h : Nat) (regs : List Registration) : List Registration :=
  cleanupEffect h (mountEffect h regs)

/-- Run n mount/unmount cycles, each with a fresh handler identity. -/
def runCycles : Nat → List Registration → List Registration
  | 0, regs => regs
  | n + 1, regs => runCycles n (mountCycle n regs)

/-! Helper lemmas shared by the claim theorems. -/

theorem eq_none_of_isSome_false {α : Type} {o : Option α} (h : o.isSome = false) :
    o = none := by
  cases o with
  | none => rfl
  | some a => simp at h

theorem mem_eseq {e : Effect} {a b : Comp} (h : e ∈ (eseq a b).1) :
    e ∈ a.1 ∨ e ∈ b.1 := by
  rcases a with ⟨tr, r⟩
  cases r with
  | ok u => simp [eseq] at h; tauto
  | error u => simp [eseq] at h; tauto

theorem mem_tryCatch {e : Effect} {a b : Comp} (h : e ∈ (tryCatch a b).1) :
    e ∈ a.1 ∨ e ∈ b.1 := by
  rcases a with ⟨tr, r⟩
  cases r with
  | ok u => simp [tryCatch] at h; tauto
  | error u => simp [tryCatch] at h; tauto

theorem mem_callStep {e eff : Effect} {m : Option Bool} {next : Comp}
    (h : e ∈ (callStep eff m next).1) : e = eff ∨ e ∈ next.1 := by
  cases m with
  | none => exact Or.inr h
  | some b => simp [callStep] at h; tauto

theorem mem_enterChain {e : Effect} {env : FullscreenEnv}
    (h : e ∈ (enterChain env).1) : ∃ m, e = Effect.entryCall m := by
  unfold enterChain at h
  rcases mem_callStep h with rfl | h
  · exact ⟨_, rfl⟩
  rcases mem_callStep h with rfl | h
  · exact ⟨_, rfl⟩
  rcases mem_callStep h with rfl | h
  · exact ⟨_, rfl⟩
  rcases mem_callStep h with rfl | h
  · exact ⟨_, rfl⟩
  cases hv : env.videoPresent with
  | true =>
      rw [hv] at h
      simp only [if_true] at h
      rcases mem_callStep h with rfl | h
      · exact ⟨_, rfl⟩
      · simp at h
  | false =>
      rw [hv] at h
      simp at h

theorem mem_exitChain {e : Effect} {env : FullscreenEnv}
    (h : e ∈ (exitChain env).1) : ∃ m, e = Effect.exitCall m := by
  unfold exitChain at h
  rcases mem_callStep h with rfl | h
  · exact ⟨_, rfl⟩
  rcases mem_callStep h with rfl | h
  · exact ⟨_, rfl⟩
  rcases mem_callStep h with rfl | h
  · exact ⟨_, rfl⟩
  rcases mem_callStep h with rfl | h
  · exact ⟨_, rfl⟩
  simp at h

theorem mem_lockGuard {e : Effect} {env : FullscreenEnv}
    (h : e ∈ (lockGuard env).1) :
    e = Effect.lockCall ∨ e = Effect.warnLog := by
  unfold lockGuard at h
  cases ho : env.orientationLock with
  | none => rw [ho] at h; simp at h
  | some b =>
      rw [ho] at h
      cases b <;> simp [tryCatch] at h <;> tauto

theorem mem_unlockGuard {e : Effect} {env : FullscreenEnv}
    (h : e ∈ (unlockGuard env).1) :
    e = Effect.unlockCall ∨ e = Effect.warnLog := by
  unfold unlockGuard at h
  cases ho : env.orientationUnlock with
  | none => rw [ho] at h; simp at h
  | some b =>
      rw [ho] at h
      cases b <;> simp [tryCatch] at h <;> tauto

theorem mem_lastDitch {e : Effect} {env : FullscreenEnv}
    (h : e ∈ (lastDitch env).1) :
    e = Effect.entryCall EntryMethod.webkitEnterFullscreen ∨ e = Effect.errorLog := by
  unfold lastDitch at h
  cases hv : env.videoPresent with
  | false => rw [hv] at h; simp at h
  | true =>
      rw [hv] at h
      simp only [if_true] at h
      cases ho : env.webkitEnterFullscreen with
      | none => rw [ho] at h; simp at h
      | some b =>
          rw [ho] at h
          cases b <;> simp [tryCatch] at h <;> tauto

theorem mem_enterBranch {e : Effect} {env : FullscreenEnv}
    (h : e ∈ (enterBranch env).1) :
    (∃ m, e = Effect.entryCall m) ∨ e = Effect.lockCall ∨ e = Effect.warnLog ∨
      e = Effect.errorLog := by
  unfold enterBranch at h
  rcases mem_tryCatch h with h | h
  · rcases mem_eseq h with h | h
    · exact Or.inl (mem_enterChain h)
    · rcases mem_lockGuard h with rfl | rfl <;> tauto
  · rcases mem_eseq h with h | h
    · simp at h; tauto
    · rcases mem_lastDitch h with rfl | rfl
      · exact Or.inl ⟨_, rfl⟩
      · tauto

theorem mem_exitBranch {e : Effect} {env : FullscreenEnv}
    (h : e ∈ (exitBranch env).1) :
    (∃ m, e = Effect.exitCall m) ∨ e = Effect.unlockCall ∨ e = Effect.warnLog ∨
      e = Effect.errorLog := by
  unfold exitBranch at h
  rcases mem_tryCatch h with h | h
  · rcases mem_eseq h with h | h
    · exact Or.inl (mem_exitChain h)
    · rcases mem_unlockGuard h with rfl | rfl <;> tauto
  · simp at h; tauto

theorem mem_toggleFullscreen {e : Effect} {env : FullscreenEnv} {fs : Bool}
    (h : e ∈ (toggleFullscreen env fs).1) :
    (∃ m, e = Effect.entryCall m) ∨ (∃ m, e = Effect.exitCall m) ∨
      e = Effect.lockCall ∨ e = Effect.unlockCall ∨ e = Effect.warnLog ∨
      e = Effect.errorLog := by
  unfold toggleFullscreen at h
  cases hc : env.containerPresent with
  | false => rw [hc] at h; simp at h
  | true =>
      rw [hc] at h
      simp only [if_true] at h
      cases fs with
      | true => rcases mem_exitBranch h with h | h | h | h <;> tauto
      | false => rcases mem_enterBranch h with h | h | h | h <;> tauto

theorem tryCatch_ok {a b : Comp} (hb : b.2 = Except.ok ()) :
    (tryCatch a b).2 = Except.ok () := by
  rcases a with ⟨tr, r⟩
  cases r with
  | ok u => rfl
  | error u => simpa [tryCatch] using hb

theorem lockGuard_ok (env : FullscreenEnv) : (lockGuard env).2 = Except.ok () := by
  unfold lockGuard
  cases env.orientationLock with
  | none => rfl
  | some b => exact tryCatch_ok rfl

theorem unlockGuard_ok (env : FullscreenEnv) : (unlockGuard env).2 = Except.ok () := by
  unfold unlockGuard
  cases env.orientationUnlock with
  | none => rfl
  | some b => exact tryCatch_ok rfl

theorem lastDitch_ok (env : FullscreenEnv) : (lastDitch env).2 = Except.ok () := by
  unfold lastDitch
  cases env.videoPresent with
  | false => rfl
  | true =>
      simp only [if_true]
      cases env.webkitEnterFullscreen with
      | none => rfl
      | some b => exact tryCatch_ok rfl

theorem eseq_snd_ok {a b : Comp} (hb : b.2 = Except.ok ()) :
    (eseq a b).2 = Except.ok () ∨ (eseq a b).2 = a.2 := by
  rcases a with ⟨tr, r⟩
  cases r with
  | ok u => left; simpa [eseq] using hb
  | error u => right; rfl

theorem enterBranch_ok (env : FullscreenEnv) :
    (enterBranch env).2 = Except.ok () := by
  unfold enterBranch
  apply tryCatch_ok
  rcases @eseq_snd_ok ([Effect.warnLog], Except.ok ()) (lastDitch env)
      (lastDitch_ok env) with h | h
  · exact h
  · exact h

theorem exitBranch_ok (env : FullscreenEnv) :
    (exitBranch env).2 = Except.ok () := by
  unfold exitBranch
  exact tryCatch_ok rfl

theorem toggleFullscreen_ok (env : FullscreenEnv) (fs : Bool) :
    (toggleFullscreen env fs).2 = Except.ok () := by
  unfold toggleFullscreen
  cases env.containerPresent with
  | false => rfl
  | true =>
      simp only [if_true]
      cases fs with
      | true => exact exitBranch_ok env
      | false => exact enterBranch_ok env

theorem filterMap_lockGuard {β : Type} (f : Effect → Option β)
    (hl : f Effect.lockCall = none) (hw : f Effect.warnLog = none)
    (env : FullscreenEnv) : ((lockGuard env).1).filterMap f = [] := by
  unfold lockGuard
  cases env.orientationLock with
  | none => rfl
  | some b => cases b <;> simp [tryCatch, List.filterMap_cons, hl, hw]

theorem filterMap_unlockGuard {β : Type} (f : Effect → Option β)
    (hu : f Effect.unlockCall = none) (hw : f Effect.warnLog = none)
    (env : FullscreenEnv) : ((unlockGuard env).1).filterMap f = [] := by
  unfold unlockGuard
  cases env.orientationUnlock with
  | none => rfl
  | some b => cases b <;> simp [tryCatch, List.filterMap_cons, hu, hw]

theorem filterMap_enterBranch {β : Type} (f : Effect → Option β)
    (hl : f Effect.lockCall = none) (hw : f Effect.warnLog = none)
    (env : FullscreenEnv) :
    ((enterBranch env).1).filterMap f =
      ((enterChain env).1).filterMap f ++
        (if isOk (enterChain env).2 then []
         else ((lastDitch env).1).filterMap f) := by
  unfold enterBranch
  rcases hE : enterChain env with ⟨tr, r⟩
  cases r with
  | ok u =>
      cases u
      rcases hL : lockGuard env with ⟨ltr, lr⟩
      have hlr : lr = Except.ok () := by
        have h0 := lockGuard_ok env
        rw [hL] at h0
        exact h0
      have hltr : ltr.filterMap f = [] := by
        have h0 := filterMap_lockGuard f hl hw env
        rw [hL] at h0
        exact h0
      subst hlr
      simp [eseq, tryCatch, isOk, List.filterMap_append, hltr]
  | error u =>
      cases u
      simp [eseq, tryCatch, isOk, List.filterMap_append, List.filterMap_cons, hw]

theorem filterMap_exitBranch {β : Type} (f : Effect → Option β)
    (hu : f Effect.unlockCall = none) (hw : f Effect.warnLog = none)
    (he : f Effect.errorLog = none) (env : FullscreenEnv) :
    ((exitBranch env).1).filterMap f = ((exitChain env).1).filterMap f := by
  unfold exitBranch
  rcases hE : exitChain env with ⟨tr, r⟩
  cases r with
  | ok u =>
      cases u
      rcases hU : unlockGuard env with ⟨utr, ur⟩
      have hur : ur = Except.ok () := by
        have h0 := unlockGuard_ok env
        rw [hU] at h0
        exact h0
      have hutr : utr.filterMap f = [] := by
        have h0 := filterMap_unlockGuard f hu hw env
        rw [hU] at h0
        exact h0
      subst hur
      simp [eseq, tryCatch, List.filterMap_append, hutr]
  | error u =>
      cases u
      simp [eseq, tryCatch, List.filterMap_append, List.filterMap_cons, he]

theorem containerPresent_setOrientation (env : FullscreenEnv) (o u : Option Bool) :
    (setOrientation env o u).containerPresent = env.containerPresent := rfl

theorem enterChain_setOrientation (env : FullscreenEnv) (o u : Option Bool) :
    enterChain (setOrientation env o u) = enterChain env := rfl

theorem exitChain_setOrientation (env : FullscreenEnv) (o u : Option Bool) :
    exitChain (setOrientation env o u) = exitChain env := rfl

theorem lastDitch_setOrientation (env : FullscreenEnv) (o u : Option Bool) :
    lastDitch (setOrientation env o u) = lastDitch env := rfl

theorem fullscreenCalls_toggle (env : FullscreenEnv) (fs : Bool) :
    fullscreenCalls (toggleFullscreen env fs).1 =
      if env.containerPresent then
        (if fs then fullscreenCalls (exitChain env).1
         else fullscreenCalls (enterChain env).1 ++
           (if isOk (enterChain env).2 then []
            else fullscreenCalls (lastDitch env).1))
      else [] := by
  unfold toggleFullscreen
  cases env.containerPresent with
  | false => rfl
  | true =>
      cases fs with
      | true =>
          show fullscreenCalls (exitBranch env).1 = fullscreenCalls (exitChain env).1
          exact filterMap_exitBranch _ rfl rfl rfl env
      | false =>
          show fullscreenCalls (enterBranch env).1 =
            fullscreenCalls (enterChain env).1 ++
              (if isOk (enterChain env).2 then []
               else fullscreenCalls (lastDitch env).1)
          exact filterMap_enterBranch _ rfl rfl env

/-! Claim theorems. -/

/-- C10: whenever the container reference is null, `toggleFullscreen` returns
immediately with an empty effect trace and a normal outcome — no browser API
at all is invoked, in particular not the media element's native
webkitEnterFullscreen, even when that method is present and would succeed. -/
theorem toggleFullscreen_null_container (env : FullscreenEnv) (fs : Bool)
    (h : env.containerPresent = false) :
    toggleFullscreen env fs = ([], Except.ok ()) := by
  unfold toggleFullscreen
  rw [h]
  rfl

/-- Witness for C10: a host with a null container but a media element that
does expose webkitEnterFullscreen still gets an empty trace. -/
theorem toggleFullscreen_null_container_witness :
    toggleFullscreen
      ⟨false, none, none, none, none, true, some true, none, none, none, none,
        none, none⟩ false = ([], Except.ok ()) :=
  toggleFullscreen_null_container _ false rfl

/-- C2: no invocation of `toggleFullscreen` — for any host environment, branch
or chain outcome — ever emits a `setIsFullscreen` mutator call; neither do the
other commands or the capability probe; the passive change handler is the only
code path that writes `isFullscreen`. -/
theorem toggleFullscreen_never_writes_isFullscreen :
    (∀ (env : FullscreenEnv) (fs b : Bool),
        Effect.setIsFullscreen b ∉ (toggleFullscreen env fs).1) ∧
    (∀ (env : PiPEnv) (b : Bool),
        Effect.setIsFullscreen b ∉ (togglePictureInPicture env).1) ∧
    (∀ (env : AirPlayEnv) (b : Bool),
        Effect.setIsFullscreen b ∉ showAirPlayMenu env) ∧
    (∀ (env : ProbeEnv) (b : Bool),
        Effect.setIsFullscreen b ∉ capabilityProbe env) ∧
    (∀ d : DocState,
        Effect.setIsFullscreen (d.fullscreenElement || d.webkitFullscreenElement ||
          d.mozFullScreenElement || d.msFullscreenElement) ∈
          handleFullscreenChange d) := by
  refine ⟨?_, ?_, ?_, ?_, ?_⟩
  · intro env fs b h
    rcases mem_toggleFullscreen h with ⟨m, hm⟩ | ⟨m, hm⟩ | hm | hm | hm | hm <;>
      simp at hm
  · intro env b h
    obtain ⟨v, s, p, pe, rq⟩ := env
    revert h
    cases v <;> cases s <;> cases p <;> cases pe <;> cases rq <;> cases b <;> decide
  · intro env b h
    obtain ⟨v, s, pk⟩ := env
    revert h
    cases v <;> cases s <;> cases pk <;> cases b <;> decide
  · intro env b h
    obtain ⟨dd, wd, pip, air⟩ := env
    revert h
    cases dd <;> cases wd <;> cases pip <;> cases air <;> cases b <;> decide
  · intro d
    simp [handleFullscreenChange]

/-- C3: every firing of the passive fullscreen-change handler writes exactly
one `isFullscreen` value, and that value is the logical OR of the four vendor
"current fullscreen element" document properties read at that instant. -/
theorem handleFullscreenChange_writes_or (d : DocState) :
    fsWrites (handleFullscreenChange d) =
      [d.fullscreenElement || d.webkitFullscreenElement ||
        d.mozFullScreenElement || d.msFullscreenElement] := by
  obtain ⟨a, b, c, e, ol, ou⟩ := d
  cases a <;> cases b <;> cases c <;> cases e <;> cases ol <;> cases ou <;> rfl

/-- Witness for C3 at a concrete document state. -/
theorem handleFullscreenChange_writes_or_witness :
    fsWrites (handleFullscreenChange ⟨false, true, false, false, some true, none⟩) =
      [true] :=
  handleFullscreenChange_writes_or ⟨false, true, false, false, some true, none⟩

/-- C6: when `document` (resp. `window`) is undefined the probe emits no
`setIsPiPSupported` (resp. `setIsAirPlaySupported`) call, so the flags keep
their prior value; when the global exists, the flag is set exactly to the
membership test of the vendor feature on that global. -/
theorem capabilityProbe_defensive (env : ProbeEnv) (s : SupportFlags) :
    ((runProbe env s).isPiPSupported =
        if env.documentDefined then env.pictureInPictureEnabledInDocument
        else s.isPiPSupported) ∧
    ((runProbe env s).isAirPlaySupported =
        if env.windowDefined then env.webKitPlaybackTargetAvailabilityEventInWindow
        else s.isAirPlaySupported) ∧
    (env.documentDefined = false →
        ∀ b, Effect.setIsPiPSupported b ∉ capabilityProbe env) ∧
    (env.windowDefined = false →
        ∀ b, Effect.setIsAirPlaySupported b ∉ capabilityProbe env) := by
  obtain ⟨dd, wd, pip, air⟩ := env
  obtain ⟨sp, sa⟩ := s
  cases dd <;> cases wd <;> cases pip <;> cases air <;> cases sp <;> cases sa <;>
    decide

/-- Witness for C6: with both globals undefined, the probe calls neither
mutator, so flags keep their (default false) prior value. -/
theorem capabilityProbe_defensive_witness :
    Effect.setIsPiPSupported true ∉ capabilityProbe ⟨false, false, true, true⟩ ∧
    Effect.setIsAirPlaySupported true ∉ capabilityProbe ⟨false, false, true, true⟩ :=
  ⟨(capabilityProbe_defensive ⟨false, false, true, true⟩ ⟨false, false⟩).2.2.1
      rfl true,
   (capabilityProbe_defensive ⟨false, false, true, true⟩ ⟨false, false⟩).2.2.2
      rfl true⟩

/-- C7: the menu position computed on open is top = trigger.bottom −
boundary.top + 10 and left = trigger.right − boundary.left (so trigger
bottom 100/right 50 against boundary top 20/left 10 yields top 90/left 40),
and the rendered popover carries the translateX(-100%) shift that aligns its
right edge with the trigger's right edge. -/
theorem menuPosition_correct :
    (∀ buttonRect containerRect : Rect,
        computeMenuPosition buttonRect containerRect =
          specMenuPosition buttonRect containerRect) ∧
    computeMenuPosition ⟨0, 100, 0, 50⟩ ⟨20, 0, 10, 0⟩ = ⟨90, 40⟩ ∧
    menuContentTransform = "translateX(-100%)" := by
  refine ⟨fun b c => rfl, by decide, rfl⟩

/-- C9: `togglePictureInPicture` is a complete no-op when the media element is
missing or the capability flag is false; otherwise it requests PiP exit when a
PiP element is active and PiP entry otherwise, logs any rejection, and never
rethrows to its caller. -/
theorem togglePictureInPicture_correct (env : PiPEnv) :
    ((env.videoPresent = false ∨ env.isPiPSupported = false) →
        togglePictureInPicture env = ([], Except.ok ())) ∧
    (env.videoPresent = true → env.isPiPSupported = true →
      env.pictureInPictureElement = true →
        Effect.pipExitCall ∈ (togglePictureInPicture env).1 ∧
        Effect.pipEnterCall ∉ (togglePictureInPicture env).1) ∧
    (env.videoPresent = true → env.isPiPSupported = true →
      env.pictureInPictureElement = false →
        Effect.pipEnterCall ∈ (togglePictureInPicture env).1 ∧
        Effect.pipExitCall ∉ (togglePictureInPicture env).1) ∧
    (env.videoPresent = true → env.isPiPSupported = true →
      env.pictureInPictureElement = true → env.exitPictureInPicture = false →
        Effect.errorLog ∈ (togglePictureInPicture env).1) ∧
    (env.videoPresent = true → env.isPiPSupported = true →
      env.pictureInPictureElement = false → env.requestPictureInPicture = false →
        Effect.errorLog ∈ (togglePictureInPicture env).1) ∧
    isOk (togglePictureInPicture env).2 = true := by
  obtain ⟨v, s, p, pe, rq⟩ := env
  cases v <;> cases s <;> cases p <;> cases pe <;> cases rq <;>
    simp [togglePictureInPicture, tryCatch, isOk]

/-- Witness for C9: with a media element, the capability, no active PiP
element and a rejecting entry request, entry is requested and exit is not. -/
theorem togglePictureInPicture_correct_witness :
    Effect.pipEnterCall ∈ (togglePictureInPicture ⟨true, true, false, true, false⟩).1 ∧
    Effect.pipExitCall ∉ (togglePictureInPicture ⟨true, true, false, true, false⟩).1 :=
  (togglePictureInPicture_correct ⟨true, true, false, true, false⟩).2.2.1 rfl rfl rfl

/-- C8: the passive-synchronization effect registers its handler for exactly
the four fullscreen-change event names, a cleanup against a registry that did
not already hold this handler removes exactly those registrations, and any
number of mount/unmount cycles leaves zero residual registrations. -/
theorem listener_teardown_symmetry :
    (∀ (h : Nat) (regs : List Registration),
        mountEffect h regs = regs ++
          [("fullscreenchange", h), ("webkitfullscreenchange", h),
           ("mozfullscreenchange", h), ("MSFullscreenChange", h)]) ∧
    (∀ (h : Nat) (regs : List Registration),
        (∀ ev, ((ev, h) : Registration) ∉ regs) → mountCycle h regs = regs) ∧
    (∀ n, runCycles n [] = []) := by
  have key : ∀ (h : Nat) (regs : List Registration),
      (∀ ev, ((ev, h) : Registration) ∉ regs) → mountCycle h regs = regs := by
    intro h regs hne
    show cleanupEffect h (mountEffect h regs) = regs
    unfold cleanupEffect mountEffect fullscreenChangeEvents
    simp only [List.map, List.foldl]
    rw [List.erase_append_right _ (hne _), List.erase_cons_head]
    rw [List.erase_append_right _ (hne _), List.erase_cons_head]
    rw [List.erase_append_right _ (hne _), List.erase_cons_head]
    rw [List.erase_append_right _ (hne _), List.erase_cons_head]
    exact List.append_nil regs
  have cyc : ∀ n, runCycles n [] = [] := by
    intro n
    induction n with
    | zero => rfl
    | succ n ih =>
        show runCycles n (mountCycle n []) = []
        rw [key n [] fun ev => List.not_mem_nil _]
        exact ih
  exact ⟨fun h regs => rfl, key, cyc⟩

/-- Witness for C8: one cycle against a registry holding a different
handler's registration leaves that registry unchanged. -/
theorem listener_teardown_symmetry_witness :
    mountCycle 0 [(("fullscreenchange", 1) : Registration)] =
      [(("fullscreenchange", 1) : Registration)] :=
  listener_teardown_symmetry.2.1 0 [("fullscreenchange", 1)] (by simp)

/-- C4: however the orientation lock/unlock behaves — absent, succeeding, or
failing — `toggleFullscreen` completes with a normal outcome (never throws or
rejects to its caller), and the primary fullscreen API invocations of the
trace are identical under any two orientation behaviours. -/
theorem orientation_failure_harmless (env : FullscreenEnv) (fs : Bool)
    (o u o' u' : Option Bool) :
    (toggleFullscreen env fs).2 = Except.ok () ∧
    fullscreenCalls (toggleFullscreen (setOrientation env o u) fs).1 =
      fullscreenCalls (toggleFullscreen (setOrientation env o' u') fs).1 := by
  refine ⟨toggleFullscreen_ok env fs, ?_⟩
  rw [fullscreenCalls_toggle, fullscreenCalls_toggle,
    containerPresent_setOrientation env o u,
    containerPresent_setOrientation env o' u',
    enterChain_setOrientation env o u, enterChain_setOrientation env o' u',
    exitChain_setOrientation env o u, exitChain_setOrientation env o' u',
    lastDitch_setOrientation env o u, lastDitch_setOrientation env o' u']

theorem lockCall_mem_lockGuard (env : FullscreenEnv) :
    Effect.lockCall ∈ (lockGuard env).1 ↔ env.orientationLock.isSome = true := by
  unfold lockGuard
  cases env.orientationLock with
  | none => simp
  | some b => cases b <;> simp [tryCatch]

/-- C5 counterexample: in a host exposing none of the five entry methods but
an orientation lock capability, `toggleFullscreen` (entering) still issues the
lock request — the lock is not gated on a structurally successful entry
attempt. -/
theorem lock_requested_without_entry :
    (∀ m : EntryMethod,
        entryExists
          ⟨true, none, none, none, none, false, none, none, none, none, none,
            some true, none⟩ m = false) ∧
    Effect.lockCall ∈
      (toggleFullscreen
          ⟨true, none, none, none, none, false, none, none, none, none, none,
            some true, none⟩ false).1 := by
  constructor
  · intro m
    cases m <;> rfl
  · exact List.Mem.head _

/-- C5 amended: in the entering branch the landscape lock request is issued
exactly when the lock capability exists and the entry chain completed without
throwing — which includes the case where no entry method exists at all (the
chain falls through successfully); it is skipped only when the chain threw or
the capability is absent. -/
theorem lockCall_iff_chain_ok (env : FullscreenEnv)
    (hc : env.containerPresent = true) :
    Effect.lockCall ∈ (toggleFullscreen env false).1 ↔
      env.orientationLock.isSome = true ∧ (enterChain env).2 = Except.ok () := by
  have ht : toggleFullscreen env false = enterBranch env := by
    unfold toggleFullscreen
    rw [hc]
    rfl
  rw [ht]
  unfold enterBranch
  rcases hE : enterChain env with ⟨tr, r⟩
  have htr : ∀ e ∈ tr, ∃ m, e = Effect.entryCall m := by
    intro e he
    have he' : e ∈ (enterChain env).1 := by
      rw [hE]
      exact he
    exact mem_enterChain he'
  cases r with
  | ok u =>
      cases u
      rcases hL : lockGuard env with ⟨ltr, lr⟩
      have hlr : lr = Except.ok () := by
        have h0 := lockGuard_ok env
        rw [hL] at h0
        exact h0
      subst hlr
      have hmem : Effect.lockCall ∈ ltr ↔ env.orientationLock.isSome = true := by
        have h0 := lockCall_mem_lockGuard env
        rw [hL] at h0
        exact h0
      simp only [eseq, tryCatch, List.mem_append]
      constructor
      · rintro (h | h)
        · rcases htr _ h with ⟨m, hm⟩
          simp at hm
        · exact ⟨hmem.mp h, trivial⟩
      · rintro ⟨hs, _⟩
        exact Or.inr (hmem.mpr hs)
  | error u =>
      cases u
      simp only [eseq, tryCatch, List.mem_append]
      constructor
      · rintro (h | h | h)
        · rcases htr _ h with ⟨m, hm⟩
          simp at hm
        · simp at h
        · rcases mem_lastDitch h with h | h <;> simp at h
      · rintro ⟨_, h2⟩
        exact absurd h2 (by simp)

/-- Witness for the amended C5: a host with a resolving standard entry method
and a lock capability does issue the lock request. -/
theorem lockCall_iff_chain_ok_witness :
    Effect.lockCall ∈
      (toggleFullscreen
          ⟨true, some true, none, none, none, false, none, none, none, none,
            none, some true, none⟩ false).1 :=
  (lockCall_iff_chain_ok _ rfl).mpr ⟨rfl, rfl⟩

theorem toggleFullscreen_enter (env : FullscreenEnv)
    (hc : env.containerPresent = true) :
    toggleFullscreen env false = enterBranch env := by
  unfold toggleFullscreen
  rw [hc]
  rfl

theorem toggleFullscreen_exit (env : FullscreenEnv)
    (hc : env.containerPresent = true) :
    toggleFullscreen env true = exitBranch env := by
  unfold toggleFullscreen
  rw [hc]
  rfl

theorem entryCalls_enterBranch (env : FullscreenEnv) :
    entryCalls (enterBranch env).1 =
      entryCalls (enterChain env).1 ++
        (if isOk (enterChain env).2 then []
         else entryCalls (lastDitch env).1) :=
  filterMap_enterBranch _ rfl rfl env

theorem exitCalls_exitBranch (env : FullscreenEnv) :
    exitCalls (exitBranch env).1 = exitCalls (exitChain env).1 :=
  filterMap_exitBranch _ rfl rfl rfl env

theorem lastDitch_empty (env : FullscreenEnv)
    (h : (env.videoPresent && env.webkitEnterFullscreen.isSome) = false) :
    lastDitch env = ([], Except.ok ()) := by
  unfold lastDitch
  cases hv : env.videoPresent with
  | false => rfl
  | true =>
      rw [hv] at h
      simp only [Bool.true_and] at h
      rw [eq_none_of_isSome_false h]
      rfl

/-- C1: for both fallback chains of `toggleFullscreen`, in any host
environment exposing exactly one method of the chain, that method is the only
chain method invoked (and it is invoked): no earlier or later link of the
chain is ever called. -/
theorem fallbackChain_first_wins (env : FullscreenEnv)
    (hc : env.containerPresent = true) :
    (∀ k : EntryMethod,
      (∀ j : EntryMethod, entryExists env j = true ↔ j = k) →
        entryCalls (toggleFullscreen env false).1 ≠ [] ∧
        ∀ m ∈ entryCalls (toggleFullscreen env false).1, m = k) ∧
    (∀ k : ExitMethod,
      (∀ j : ExitMethod, exitExists env j = true ↔ j = k) →
        exitCalls (toggleFullscreen env true).1 = [k]) := by
  constructor
  · intro k hk
    have hex : entryExists env k = true := (hk k).mpr rfl
    have hne : ∀ j : EntryMethod, j ≠ k → entryExists env j = false := by
      intro j hj
      cases h : entryExists env j with
      | false => rfl
      | true => exact absurd ((hk j).mp h) hj
    rw [toggleFullscreen_enter env hc, entryCalls_enterBranch]
    cases k with
    | requestFullscreen =>
        have e2 : env.webkitRequestFullscreen = none :=
          eq_none_of_isSome_false
            (hne EntryMethod.webkitRequestFullscreen fun h => EntryMethod.noConfusion h)
        have e3 : env.mozRequestFullScreen = none :=
          eq_none_of_isSome_false
            (hne EntryMethod.mozRequestFullScreen fun h => EntryMethod.noConfusion h)
        have e4 : env.msRequestFullscreen = none :=
          eq_none_of_isSome_false
            (hne EntryMethod.msRequestFullscreen fun h => EntryMethod.noConfusion h)
        have h5f : (env.videoPresent && env.webkitEnterFullscreen.isSome) = false :=
          hne EntryMethod.webkitEnterFullscreen fun h => EntryMethod.noConfusion h
        obtain ⟨b, e1⟩ := Option.isSome_iff_exists.mp hex
        have hch : enterChain env =
            ([Effect.entryCall EntryMethod.requestFullscreen],
              if b then Except.ok () else Except.error ()) := by
          unfold enterChain callStep
          rw [e1]
        rw [hch, lastDitch_empty env h5f]
        cases b <;> simp [entryCalls, isOk]
    | webkitRequestFullscreen =>
        have e1 : env.requestFullscreen = none :=
          eq_none_of_isSome_false
            (hne EntryMethod.requestFullscreen fun h => EntryMethod.noConfusion h)
        have e3 : env.mozRequestFullScreen = none :=
          eq_none_of_isSome_false
            (hne EntryMethod.mozRequestFullScreen fun h => EntryMethod.noConfusion h)
        have e4 : env.msRequestFullscreen = none :=
          eq_none_of_isSome_false
            (hne EntryMethod.msRequestFullscreen fun h => EntryMethod.noConfusion h)
        have h5f : (env.videoPresent && env.webkitEnterFullscreen.isSome) = false :=
          hne EntryMethod.webkitEnterFullscreen fun h => EntryMethod.noConfusion h
        obtain ⟨b, e2⟩ := Option.isSome_iff_exists.mp hex
        have hch : enterChain env =
            ([Effect.entryCall EntryMethod.webkitRequestFullscreen],
              if b then Except.ok () else Except.error ()) := by
          unfold enterChain callStep
          rw [e1, e2]
        rw [hch, lastDitch_empty env h5f]
        cases b <;> simp [entryCalls, isOk]
    | mozRequestFullScreen =>
        have e1 : env.requestFullscreen = none :=
          eq_none_of_isSome_false
            (hne EntryMethod.requestFullscreen fun h => EntryMethod.noConfusion h)
        have e2 : env.webkitRequestFullscreen = none :=
          eq_none_of_isSome_false
            (hne EntryMethod.webkitRequestFullscreen fun h => EntryMethod.noConfusion h)
        have e4 : env.msRequestFullscreen = none :=
          eq_none_of_isSome_false
            (hne EntryMethod.msRequestFullscreen fun h => EntryMethod.noConfusion h)
        have h5f : (env.videoPresent && env.webkitEnterFullscreen.isSome) = false :=
          hne EntryMethod.webkitEnterFullscreen fun h => EntryMethod.noConfusion h
        obtain ⟨b, e3⟩ := Option.isSome_iff_exists.mp hex
        have hch : enterChain env =
            ([Effect.entryCall EntryMethod.mozRequestFullScreen],
              if b then Except.ok () else Except.error ()) := by
          unfold enterChain callStep
          rw [e1, e2, e3]
        rw [hch, lastDitch_empty env h5f]
        cases b <;> simp [entryCalls, isOk]
    | msRequestFullscreen =>
        have e1 : env.requestFullscreen = none :=
          eq_none_of_isSome_false
            (hne EntryMethod.requestFullscreen fun h => EntryMethod.noConfusion h)
        have e2 : env.webkitRequestFullscreen = none :=
          eq_none_of_isSome_false
            (hne EntryMethod.webkitRequestFullscreen fun h => EntryMethod.noConfusion h)
        have e3 : env.mozRequestFullScreen = none :=
          eq_none_of_isSome_false
            (hne EntryMethod.mozRequestFullScreen fun h => EntryMethod.noConfusion h)
        have h5f : (env.videoPresent && env.webkitEnterFullscreen.isSome) = false :=
          hne EntryMethod.webkitEnterFullscreen fun h => EntryMethod.noConfusion h
        obtain ⟨b, e4⟩ := Option.isSome_iff_exists.mp hex
        have hch : enterChain env =
            ([Effect.entryCall EntryMethod.msRequestFullscreen],
              if b then Except.ok () else Except.error ()) := by
          unfold enterChain callStep
          rw [e1, e2, e3, e4]
        rw [hch, lastDitch_empty env h5f]
        cases b <;> simp [entryCalls, isOk]
    | webkitEnterFullscreen =>
        have e1 : env.requestFullscreen = none :=
          eq_none_of_isSome_false
            (hne EntryMethod.requestFullscreen fun h => EntryMethod.noConfusion h)
        have e2 : env.webkitRequestFullscreen = none :=
          eq_none_of_isSome_false
            (hne EntryMethod.webkitRequestFullscreen fun h => EntryMethod.noConfusion h)
        have e3 : env.mozRequestFullScreen = none :=
          eq_none_of_isSome_false
            (hne EntryMethod.mozRequestFullScreen fun h => EntryMethod.noConfusion h)
        have e4 : env.msRequestFullscreen = none :=
          eq_none_of_isSome_false
            (hne EntryMethod.msRequestFullscreen fun h => EntryMethod.noConfusion h)
        have hex' : (env.videoPresent && env.webkitEnterFullscreen.isSome) = true :=
          hex
        rw [Bool.and_eq_true] at hex'
        obtain ⟨hvp, hws⟩ := hex'
        obtain ⟨b, e5⟩ := Option.isSome_iff_exists.mp hws
        have hch : enterChain env =
            ([Effect.entryCall EntryMethod.webkitEnterFullscreen],
              if b then Except.ok () else Except.error ()) := by
          unfold enterChain callStep
          rw [e1, e2, e3, e4, hvp, e5]
          rfl
        cases b with
        | true =>
            rw [hch]
            simp [entryCalls, isOk]
        | false =>
            have hld : lastDitch env =
                ([Effect.entryCall EntryMethod.webkitEnterFullscreen,
                  Effect.errorLog], Except.ok ()) := by
              unfold lastDitch
              rw [hvp, e5]
              rfl
            rw [hch, hld]
            simp [entryCalls, isOk]
  · intro k hk
    have hex : exitExists env k = true := (hk k).mpr rfl
    have hne : ∀ j : ExitMethod, j ≠ k → exitExists env j = false := by
      intro j hj
      cases h : exitExists env j with
      | false => rfl
      | true => exact absurd ((hk j).mp h) hj
    rw [toggleFullscreen_exit env hc, exitCalls_exitBranch]
    cases k with
    | exitFullscreen =>
        have e2 : env.webkitExitFullscreen = none :=
          eq_none_of_isSome_false
            (hne ExitMethod.webkitExitFullscreen fun h => ExitMethod.noConfusion h)
        have e3 : env.mozCancelFullScreen = none :=
          eq_none_of_isSome_false
            (hne ExitMethod.mozCancelFullScreen fun h => ExitMethod.noConfusion h)
        have e4 : env.msExitFullscreen = none :=
          eq_none_of_isSome_false
            (hne ExitMethod.msExitFullscreen fun h => ExitMethod.noConfusion h)
        obtain ⟨b, e1⟩ := Option.isSome_iff_exists.mp hex
        have hch : exitChain env =
            ([Effect.exitCall ExitMethod.exitFullscreen],
              if b then Except.ok () else Except.error ()) := by
          unfold exitChain callStep
          rw [e1]
        rw [hch]
        simp [exitCalls]
    | webkitExitFullscreen =>
        have e1 : env.exitFullscreen = none :=
          eq_none_of_isSome_false
            (hne ExitMethod.exitFullscreen fun h => ExitMethod.noConfusion h)
        have e3 : env.mozCancelFullScreen = none :=
          eq_none_of_isSome_false
            (hne ExitMethod.mozCancelFullScreen fun h => ExitMethod.noConfusion h)
        have e4 : env.msExitFullscreen = none :=
          eq_none_of_isSome_false
            (hne ExitMethod.msExitFullscreen fun h => ExitMethod.noConfusion h)
        obtain ⟨b, e2⟩ := Option.isSome_iff_exists.mp hex
        have hch : exitChain env =
            ([Effect.exitCall ExitMethod.webkitExitFullscreen],
              if b then Except.ok () else Except.error ()) := by
          unfold exitChain callStep
          rw [e1, e2]
        rw [hch]
        simp [exitCalls]
    | mozCancelFullScreen =>
        have e1 : env.exitFullscreen = none :=
          eq_none_of_isSome_false
            (hne ExitMethod.exitFullscreen fun h => ExitMethod.noConfusion h)
        have e2 : env.webkitExitFullscreen = none :=
          eq_none_of_isSome_false
            (hne ExitMethod.webkitExitFullscreen fun h => ExitMethod.noConfusion h)
        have e4 : env.msExitFullscreen = none :=
          eq_none_of_isSome_false
            (hne ExitMethod.msExitFullscreen fun h => ExitMethod.noConfusion h)
        obtain ⟨b, e3⟩ := Option.isSome_iff_exists.mp hex
        have hch : exitChain env =
            ([Effect.exitCall ExitMethod.mozCancelFullScreen],
              if b then Except.ok () else Except.error ()) := by
          unfold exitChain callStep
          rw [e1, e2, e3]
        rw [hch]
        simp [exitCalls]
    | msExitFullscreen =>
        have e1 : env.exitFullscreen = none :=
          eq_none_of_isSome_false
            (hne ExitMethod.exitFullscreen fun h => ExitMethod.noConfusion h)
        have e2 : env.webkitExitFullscreen = none :=
          eq_none_of_isSome_false
            (hne ExitMethod.webkitExitFullscreen fun h => ExitMethod.noConfusion h)
        have e3 : env.mozCancelFullScreen = none :=
          eq_none_of_isSome_false
            (hne ExitMethod.mozCancelFullScreen fun h => ExitMethod.noConfusion h)
        obtain ⟨b, e4⟩ := Option.isSome_iff_exists.mp hex
        have hch : exitChain env =
            ([Effect.exitCall ExitMethod.msExitFullscreen],
              if b then Except.ok () else Except.error ()) := by
          unfold exitChain callStep
          rw [e1, e2, e3, e4]
        rw [hch]
        simp [exitCalls]

/-- Witness for C1: a host exposing only the third entry method
(mozRequestFullScreen) invokes exactly that method. -/
theorem fallbackChain_first_wins_witness :
    entryCalls
        (toggleFullscreen
            ⟨true, none, none, some true, none, false, none, none, none, none,
              none, none, none⟩ false).1 ≠ [] ∧
    ∀ m ∈ entryCalls
        (toggleFullscreen
            ⟨true, none, none, some true, none, false, none, none, none, none,
              none, none, none⟩ false).1, m = EntryMethod.mozRequestFullScreen :=
  (fallbackChain_first_wins _ rfl).1 EntryMethod.mozRequestFullScreen
    (by intro j; cases j <;> simp [entryExists])

end KVideo
